import Mathlib

/-!
Shallow embedding of `src/scripts/export-to-figma.js`, a one-off static-file
generator: it reads a design-tokens JSON document and writes a Figma-variables
JSON document, a CSS custom-properties file, component and page Markdown
guides, a navigation-flow JSON document and a static import guide.

JavaScript objects whose iteration order matters (`Object.entries`) are
modelled as association lists in insertion order; optional JSON fields are
modelled with `Option`; the filesystem is an association list from path to
file contents plus a list of existing directories; `JSON.parse` of the input
file is modelled abstractly by a `ReadResult` (the file is missing, holds
malformed JSON, or parses to a `TokensDoc`), since the claims concern what the
script does with the parse outcome, not the JSON grammar itself.
-/

/-! Example inputs used by witnesses and counterexamples. -/

/-! Helper lemmas about strings and keys. -/

namespace ExportToFigma

/-- A design token as stored in the input document: a `value` and an optional
`description` (the converter only ever reads `description` on colors). -/
structure TokenEntry where
  value : String
  description : Option String
deriving DecidableEq, Repr

/-- The optional top-level `typography` object of the input document; the
converter reads only its (itself optional) `font-size` map. -/
structure Typography where
  fontSize : Option (List (String × TokenEntry))
deriving DecidableEq, Repr

/-- The input token document `./tokens/design-tokens.json`: `colors` and
`spacing` maps (association lists in iteration order) and an optional
`typography` object. -/
structure TokensDoc where
  colors : List (String × TokenEntry)
  spacing : List (String × TokenEntry)
  typography : Option Typography
deriving DecidableEq, Repr

/-- The `figma` object inside a token's `extensions`. -/
structure FigmaExt where
  collection : String
  scopes : List String
deriving DecidableEq, Repr

/-- The `extensions` object of an emitted token. -/
structure FigmaExtensions where
  figma : FigmaExt
deriving DecidableEq, Repr

/-- One entry of the emitted `tokens` map of the Figma-variables document.
`description` is `some _` exactly when the source emits a `description`
field (it does so only for colors, where it writes `token.description || ""`). -/
structure FigmaToken where
  type : String
  value : String
  description : Option String
  extensions : FigmaExtensions
deriving DecidableEq, Repr

/-- The `core` entry of `collections` (its `variables` field is the constant
empty object, reproduced only in the serializer). -/
structure FigmaCollection where
  name : String
  modes : List String
deriving DecidableEq, Repr

/-- The whole emitted Figma-variables document. -/
structure FigmaDoc where
  version : String
  collections : List (String × FigmaCollection)
  tokens : List (String × FigmaToken)
deriving DecidableEq, Repr

/-- Conversion of one color entry (`export-to-figma.js` lines 67-79). -/
def colorToken (t : TokenEntry) : FigmaToken :=
  { type := "color"
    value := t.value
    description := some (t.description.getD "")
    extensions := { figma := { collection := "core", scopes := ["ALL_SCOPES"] } } }

/-- Conversion of one spacing entry (lines 82-93): no `description` field. -/
def spacingToken (t : TokenEntry) : FigmaToken :=
  { type := "dimension"
    value := t.value
    description := none
    extensions := { figma := { collection := "core", scopes := ["GAP", "SPACING", "WIDTH_HEIGHT"] } } }

/-- Conversion of one typography font-size entry (lines 97-108): no
`description` field. -/
def fontSizeToken (t : TokenEntry) : FigmaToken :=
  { type := "dimension"
    value := t.value
    description := none
    extensions := { figma := { collection := "core", scopes := ["FONT_SIZE"] } } }

/-- The font-size entries the converter iterates over:
`tokens.typography ? Object.entries(tokens.typography["font-size"] || {}) : (skipped)`. -/
def fontSizeEntries (d : TokensDoc) : List (String × TokenEntry) :=
  match d.typography with
  | none => []
  | some ty => ty.fontSize.getD []

/-- The `figmaTokens` document built by `exportDesignTokens` (lines 54-109). -/
def figmaTokens (d : TokensDoc) : FigmaDoc :=
  { version := "1.0.0"
    collections := [("core", { name := "Core Tokens", modes := ["light", "dark"] })]
    tokens :=
      d.colors.map (fun p => ("color/" ++ p.1, colorToken p.2))
        ++ d.spacing.map (fun p => ("spacing/" ++ p.1, spacingToken p.2))
        ++ (fontSizeEntries d).map (fun p => ("typography/size/" ++ p.1, fontSizeToken p.2)) }

/-- JavaScript `Array.prototype.join('\n')`. -/
def joinNl : List String → String
  | [] => ""
  | [x] => x
  | x :: xs => x ++ "\n" ++ joinNl xs

/-- One CSS declaration for a color entry (lines 120-122). -/
def cssColorLine (p : String × TokenEntry) : String :=
  "  --color-" ++ p.1 ++ ": " ++ p.2.value ++ ";"

/-- One CSS declaration for a spacing entry (lines 124-126). -/
def cssSpacingLine (p : String × TokenEntry) : String :=
  "  --spacing-" ++ p.1 ++ ": " ++ p.2.value ++ ";"

/-- The `cssTokens` template string (lines 117-128); `\x7b`/`\x7d` are the
literal braces of the `:root { ... }` block. -/
def cssTokens (d : TokensDoc) : String :=
  "\n/* Design Tokens para importação no Figma */\n:root \x7b\n"
    ++ joinNl (d.colors.map cssColorLine)
    ++ "\n\n"
    ++ joinNl (d.spacing.map cssSpacingLine)
    ++ "\n\x7d\n"

/-- Splitting a character list at newline characters; the analogue of reading
a text file as its list of lines (a trailing newline yields a final empty
line, as `"a\n".split` would). -/
def splitNl : List Char → List (List Char)
  | [] => [[]]
  | c :: cs =>
    if c = '\n' then [] :: splitNl cs
    else
      match splitNl cs with
      | [] => [[c]]
      | l :: ls => (c :: l) :: ls

/-- The lines of a string, as strings. -/
def strLines (s : String) : List String :=
  (splitNl s.data).map String.mk

/-- A JSON value, as far as this script emits them (strings, arrays,
objects; field order is insertion order). -/
inductive Json where
  | str (s : String)
  | arr (elems : List Json)
  | obj (fields : List (String × Json))
deriving Repr

/-- One hexadecimal digit, lower case. -/
def hexDigit (n : Nat) : String :=
  if n < 10 then String.mk [Char.ofNat (48 + n)] else String.mk [Char.ofNat (87 + n)]

/-- `JSON.stringify` escaping of one character inside a string literal. -/
def escapeChar (c : Char) : String :=
  if c = '"' then "\\\"" else if c = '\\' then "\\\\"
  else if c = '\n' then "\\n" else if c = '\r' then "\\r" else if c = '\t' then "\\t"
  else if c = '\x08' then "\\b" else if c = '\x0c' then "\\f"
  else if c.toNat < 32 then "\\u00" ++ hexDigit (c.toNat / 16) ++ hexDigit (c.toNat % 16)
  else String.mk [c]

/-- A JSON string literal with its quotes. -/
def jsonQuote (s : String) : String :=
  "\"" ++ String.join (s.data.map escapeChar) ++ "\""

/-- `n` spaces of indentation. -/
def indentSpaces (n : Nat) : String :=
  String.mk (List.replicate n ' ')

/-- JavaScript `Array.prototype.join(sep)`. -/
def joinWith (sep : String) : List String → String
  | [] => ""
  | [x] => x
  | x :: xs => x ++ sep ++ joinWith sep xs

mutual

/-- `JSON.stringify(·, null, 2)` at indentation `ind`. -/
def renderJson (ind : Nat) : Json → String
  | .str s => jsonQuote s
  | .arr [] => "[]"
  | .arr (e :: es) =>
    "[\n" ++ joinWith ",\n" (renderItems (ind + 2) (e :: es)) ++ "\n" ++ indentSpaces ind ++ "]"
  | .obj [] => "\x7b\x7d"
  | .obj (f :: fs) =>
    "\x7b\n" ++ joinWith ",\n" (renderFields (ind + 2) (f :: fs)) ++ "\n" ++ indentSpaces ind ++ "\x7d"

def renderItems (ind : Nat) : List Json → List String
  | [] => []
  | e :: es => (indentSpaces ind ++ renderJson ind e) :: renderItems ind es

def renderFields (ind : Nat) : List (String × Json) → List String
  | [] => []
  | f :: fs => (indentSpaces ind ++ jsonQuote f.1 ++ ": " ++ renderJson ind f.2) :: renderFields ind fs

end

/-- `JSON.stringify(v, null, 2)`. -/
def stringify (v : Json) : String := renderJson 0 v

/-- JSON form of one emitted token (`description` field present only when the
converter put one there, i.e. for colors). -/
def figmaTokenJson (t : FigmaToken) : Json :=
  .obj ([("type", .str t.type), ("value", .str t.value)]
    ++ (match t.description with
        | some d => [("description", .str d)]
        | none => [])
    ++ [("extensions", .obj [("figma", .obj
          [("collection", .str t.extensions.figma.collection),
           ("scopes", .arr (t.extensions.figma.scopes.map .str))])])])

/-- JSON form of the whole Figma-variables document (the `variables` field of
a collection is the constant empty object of the source). -/
def figmaDocJson (doc : FigmaDoc) : Json :=
  .obj [("version", .str doc.version),
        ("collections", .obj (doc.collections.map (fun p =>
          (p.1, Json.obj [("name", .str p.2.name),
                          ("modes", .arr (p.2.modes.map .str)),
                          ("variables", .obj [])])))),
        ("tokens", .obj (doc.tokens.map (fun p => (p.1, figmaTokenJson p.2))))]

/-- Outcome of `JSON.parse(fs.readFileSync('./tokens/design-tokens.json'))`:
the file may be missing, hold malformed JSON, or parse to a document. -/
inductive ReadResult where
  | missing
  | malformed
  | parsed (d : TokensDoc)
deriving DecidableEq, Repr

/-- The filesystem as the script sees it: the input token document (under the
fixed input path), the set of existing directories and the output files
(path, contents). -/
structure FS where
  tokensInput : ReadResult
  dirs : List String
  files : List (String × String)
deriving DecidableEq, Repr

/-- `fs.writeFileSync p c`: overwrite the file at `p`, or create it. -/
def setFile (p c : String) : List (String × String) → List (String × String)
  | [] => [(p, c)]
  | (q, d) :: fs => if q = p then (p, c) :: fs else (q, d) :: setFile p c fs

/-- Read a file back (model-level helper, used in statements). -/
def lookupFile (p : String) : List (String × String) → Option String
  | [] => none
  | (q, d) :: fs => if q = p then some d else lookupFile p fs

/-- A sequence of `writeFileSync` calls. -/
def applyWrites (ws : List (String × String)) (files : List (String × String)) :
    List (String × String) :=
  ws.foldl (fun f w => setFile w.1 w.2 f) files

/-- `fs.mkdirSync(dir, { recursive: true })` guarded by `fs.existsSync`. -/
def mkdirIfMissing (d : String) (dirs : List String) : List String :=
  if d ∈ dirs then dirs else dirs ++ [d]

def OUTPUT_DIR : String := "./exports/figma-ready"

def COMPONENTS_DIR : String := OUTPUT_DIR ++ "/components"

def PAGES_DIR : String := OUTPUT_DIR ++ "/pages"

def ASSETS_DIR : String := OUTPUT_DIR ++ "/assets"

def TOKENS_DIR : String := OUTPUT_DIR ++ "/tokens"

/-- The directory-creation loop of `prepareExport` (lines 22-26). -/
def mkAllDirs (dirs : List String) : List String :=
  [OUTPUT_DIR, COMPONENTS_DIR, PAGES_DIR, ASSETS_DIR, TOKENS_DIR].foldl
    (fun ds d => mkdirIfMissing d ds) dirs

/-- The serialized `figma-variables.json` contents. -/
def figmaVariablesFile (d : TokensDoc) : String :=
  stringify (figmaDocJson (figmaTokens d))

/-- `exportDesignTokens` (lines 46-133): read and parse the token document
(any failure propagates, carrying the filesystem state at the throw), then
write `figma-variables.json` and `tokens.css`. -/
def exportDesignTokens (fs : FS) : Except (String × FS) FS :=
  match fs.tokensInput with
  | .missing =>
    .error ("ENOENT: no such file or directory, open ./tokens/design-tokens.json", fs)
  | .malformed =>
    .error ("SyntaxError: Unexpected token in JSON", fs)
  | .parsed tokens =>
    let files1 := setFile (TOKENS_DIR ++ "/figma-variables.json") (figmaVariablesFile tokens) fs.files
    let files2 := setFile (TOKENS_DIR ++ "/tokens.css") (cssTokens tokens) files1
    .ok { fs with files := files2 }

/-- A hard-coded component descriptor (lines 138-174). -/
structure ComponentDescriptor where
  name : String
  description : String
  props : List String
  states : List String
  variants : List String
deriving DecidableEq, Repr

/-- The five hard-coded component descriptors. -/
def components : List ComponentDescriptor :=
  [ { name := "Header", description := "Cabeçalho principal com navegação",
      props := ["currentPage", "onNavigate"],
      states := ["default", "mobile-menu-open"],
      variants := ["desktop", "mobile"] },
    { name := "PaymentModal", description := "Modal de pagamento reutilizável",
      props := ["isOpen", "type", "data", "onClose"],
      states := ["closed", "room-booking", "service-booking"],
      variants := ["default"] },
    { name := "RoomCard", description := "Card de quarto com informações",
      props := ["room", "onViewDetails"],
      states := ["default", "hover"],
      variants := ["grid", "list"] },
    { name := "ServiceCard", description := "Card de serviço",
      props := ["service", "onViewDetails"],
      states := ["default", "hover"],
      variants := ["default"] },
    { name := "Footer", description := "Rodapé com links e informações",
      props := [],
      states := ["default"],
      variants := ["desktop", "mobile"] } ]

/-- The Markdown spec rendered for one component descriptor (lines 177-207). -/
def componentSpec (c : ComponentDescriptor) : String :=
  "# "
    ++ c.name
    ++ "\n\n## Descrição\n"
    ++ c.description
    ++ "\n\n## Props\n"
    ++ joinNl (c.props.map (fun prop => "- `" ++ prop ++ "`"))
    ++ "\n\n## Estados\n"
    ++ joinNl (c.states.map (fun state => "- " ++ state))
    ++ "\n\n## Variantes\n"
    ++ joinNl (c.variants.map (fun variant => "- " ++ variant))
    ++ "\n\n## Implementação\n```tsx\n// Ver: /components/"
    ++ c.name
    ++ ".tsx\n```\n\n## Design Guidelines\n- Usar Auto Layout para responsividade\n- Aplicar design tokens consistentes\n- Manter hierarquia visual clara\n- Estados de interação (hover, active, disabled)\n\n## Figma Components\n1. Criar Component Set com variantes\n2. Configurar propriedades booleanas para estados\n3. Usar Instance Swap para conteúdo dinâmico\n4. Aplicar constraints para responsividade\n"

/-- The five writes of `generateComponentSpecs` (lines 176-213):
`components/<Name>.md`. -/
def componentWrites : List (String × String) :=
  components.map (fun c => (COMPONENTS_DIR ++ "/" ++ c.name ++ ".md", componentSpec c))

/-- `generateComponentSpecs` as a filesystem step. -/
def generateComponentSpecs (fs : FS) : FS :=
  { fs with files := applyWrites componentWrites fs.files }

/-- A hard-coded page descriptor (lines 221-278). -/
structure PageDescriptor where
  name : String
  path : String
  description : String
  components : List String
  breakpoints : List String
deriving DecidableEq, Repr

/-- The eight hard-coded page descriptors. -/
def pages : List PageDescriptor :=
  [ { name := "Home", path := "/",
      description := "Página inicial com hero, quartos em destaque, serviços e atrações",
      components := ["Header", "Hero", "FeaturedRooms", "ServicesPreview", "AttractionsPreview", "Footer"],
      breakpoints := ["desktop: 1440px", "tablet: 768px", "mobile: 375px"] },
    { name := "Rooms", path := "/rooms",
      description := "Lista de quartos com filtros",
      components := ["Header", "RoomCard", "Filters", "Pagination", "Footer"],
      breakpoints := ["desktop: 1440px", "tablet: 768px", "mobile: 375px"] },
    { name := "Room Details", path := "/rooms/:id",
      description := "Detalhes do quarto com galeria e formulário de reserva",
      components := ["Header", "Breadcrumb", "ImageGallery", "RoomInfo", "BookingForm", "Footer"],
      breakpoints := ["desktop: 1440px", "tablet: 768px", "mobile: 375px"] },
    { name := "Services", path := "/services",
      description := "Lista de serviços do hotel",
      components := ["Header", "ServiceCard", "Categories", "Footer"],
      breakpoints := ["desktop: 1440px", "tablet: 768px", "mobile: 375px"] },
    { name := "Service Details", path := "/services/:id",
      description := "Detalhes do serviço com agendamento",
      components := ["Header", "Breadcrumb", "ServiceInfo", "ScheduleForm", "Footer"],
      breakpoints := ["desktop: 1440px", "tablet: 768px", "mobile: 375px"] },
    { name := "Attractions", path := "/attractions",
      description := "Atrações locais e pontos turísticos",
      components := ["Header", "AttractionCard", "Map", "Filters", "Footer"],
      breakpoints := ["desktop: 1440px", "tablet: 768px", "mobile: 375px"] },
    { name := "Login", path := "/login",
      description := "Página de login",
      components := ["Header", "LoginForm", "Footer"],
      breakpoints := ["desktop: 1440px", "tablet: 768px", "mobile: 375px"] },
    { name := "Register", path := "/register",
      description := "Página de cadastro",
      components := ["Header", "RegisterForm", "Footer"],
      breakpoints := ["desktop: 1440px", "tablet: 768px", "mobile: 375px"] } ]

/-- One page subsection of the pages guide (inner template, lines 287-294). -/
def pageSection (page : PageDescriptor) : String :=
  "\n### "
    ++ page.name
    ++ "\n- **Path:** `"
    ++ page.path
    ++ "`\n- **Descrição:** "
    ++ page.description
    ++ "\n- **Componentes:** "
    ++ joinWith ", " page.components
    ++ "\n- **Breakpoints:** "
    ++ joinWith ", " page.breakpoints
    ++ "\n\n"

/-- The full `pages/README.md` contents (lines 280-334). -/
def pagesGuide : String :=
  "# Guia de Páginas - Hotel Booking System\n\n## Overview\nSistema de reservas de hotel com 8 páginas principais, todas responsivas e com navegação integrada.\n\n## Páginas\n\n"
    ++ String.join (pages.map pageSection)
    ++ "\n\n## Navegação\n- Header com menu principal\n- Breadcrumb em páginas de detalhes\n- Footer com links secundários\n- Modal de pagamento sobreposto\n\n## Estados Globais\n- Light/Dark mode\n- Mobile menu aberto/fechado\n- Modal de pagamento aberto/fechado\n- Páginas com loading states\n\n## Responsividade\n- Desktop-first approach\n- Breakpoints: 1440px, 768px, 375px\n- Grid system responsivo\n- Imagens otimizadas por dispositivo\n\n## Figma Structure\n```\n📁 Hotel Booking System\n├── 🎨 Design System\n│   ├── Colors\n│   ├── Typography  \n│   ├── Spacing\n│   └── Components\n├── 📱 Pages\n│   ├── Home (Desktop/Tablet/Mobile)\n│   ├── Rooms (Desktop/Tablet/Mobile)\n│   ├─\uFFFD\uFFFD\uFFFD Room Details (Desktop/Tablet/Mobile)\n│   ├── Services (Desktop/Tablet/Mobile)\n│   ├── Service Details (Desktop/Tablet/Mobile)\n│   ├── Attractions (Desktop/Tablet/Mobile)\n│   ├── Login (Desktop/Tablet/Mobile)\n│   └── Register (Desktop/Tablet/Mobile)\n└── 🔄 Prototype\n    └── Navigation Flow\n```\n"

/-- `generatePagesGuide` (lines 218-338) as a filesystem step. -/
def generatePagesGuide (fs : FS) : FS :=
  { fs with files := setFile (PAGES_DIR ++ "/README.md") pagesGuide fs.files }

/-- A node of the hard-coded navigation graph (lines 346-392). -/
structure NavNode where
  title : String
  type : String
  connections : List String
deriving DecidableEq, Repr

/-- One entry of `interactions` (lines 393-406); the JS fields are named
`from` and `to`, which are renamed here because `from` is a Lean keyword. -/
structure NavInteraction where
  fromId : String
  toId : String
  trigger : String
  animation : String
deriving DecidableEq, Repr

/-- The hard-coded navigation graph (lines 343-407). -/
structure NavigationFlow where
  title : String
  startNode : String
  nodes : List (String × NavNode)
  interactions : List NavInteraction
deriving DecidableEq, Repr

def navigationFlow : NavigationFlow :=
  { title := "Hotel Booking - Navigation Flow"
    startNode := "home"
    nodes :=
      [ ("home", { title := "Home", type := "page",
                   connections := ["rooms", "services", "attractions", "login"] }),
        ("rooms", { title := "Rooms List", type := "page",
                    connections := ["home", "room-details", "login"] }),
        ("room-details", { title := "Room Details", type := "page",
                           connections := ["rooms", "payment-modal"] }),
        ("services", { title := "Services List", type := "page",
                       connections := ["home", "service-details", "login"] }),
        ("service-details", { title := "Service Details", type := "page",
                              connections := ["services", "payment-modal"] }),
        ("attractions", { title := "Attractions", type := "page",
                          connections := ["home"] }),
        ("login", { title := "Login", type := "page",
                    connections := ["register", "home"] }),
        ("register", { title := "Register", type := "page",
                       connections := ["login", "home"] }),
        ("payment-modal", { title := "Payment Modal", type := "overlay",
                            connections := ["room-details", "service-details"] }) ]
    interactions :=
      [ { fromId := "home", toId := "rooms",
          trigger := "header-nav", animation := "navigate" },
        { fromId := "room-details", toId := "payment-modal",
          trigger := "book-now-button", animation := "modal-overlay" } ] }

/-- JSON form of one navigation node. -/
def navNodeJson (n : NavNode) : Json :=
  .obj [("title", .str n.title), ("type", .str n.type),
        ("connections", .arr (n.connections.map .str))]

/-- JSON form of one interaction (emitting the original `from`/`to` keys). -/
def navInteractionJson (i : NavInteraction) : Json :=
  .obj [("from", .str i.fromId), ("to", .str i.toId),
        ("trigger", .str i.trigger), ("animation", .str i.animation)]

/-- JSON form of the navigation flow document. -/
def navigationFlowJson (f : NavigationFlow) : Json :=
  .obj [("title", .str f.title),
        ("startNode", .str f.startNode),
        ("nodes", .obj (f.nodes.map (fun p => (p.1, navNodeJson p.2)))),
        ("interactions", .arr (f.interactions.map navInteractionJson))]

/-- `generateNavigationFlow` (lines 340-415) as a filesystem step. -/
def generateNavigationFlow (fs : FS) : FS :=
  let content := stringify (navigationFlowJson navigationFlow)
  { fs with files := setFile (OUTPUT_DIR ++ "/navigation-flow.json") content fs.files }

/-- The static `IMPORT-GUIDE.md` contents (lines 420-577). -/
def importGuide : String :=
  "# 🎨 Guia de Importação para Figma\n\n## 📋 Checklist de Preparação\n\n### 1. Capturar Screenshots\n```bash\n# Instalar dependências\nnpm install puppeteer\n\n# Executar captura\nnode scripts/capture-screens.js\n\n# Verificar exports/screenshots/\n```\n\n### 2. Preparar Assets\n- ✅ Screenshots de todas as páginas\n- ✅ Design tokens exportados\n- ✅ Especificações de componentes\n- ✅ Fluxo de navegação\n\n## 🚀 Importação no Figma\n\n### Opção 1: Plugin \"HTML/CSS to Figma\"\n1. **Instalar plugin** no Figma\n2. **Abrir novo arquivo** Figma\n3. **Executar plugin** e colar HTML/CSS de cada página\n4. **Organizar frames** por breakpoint\n\n### Opção 2: Manual com Screenshots\n1. **Criar novo arquivo** Figma\n2. **Importar screenshots** por drag & drop\n3. **Organizar em frames** (1440x900, 768x1024, 375x812)\n4. **Recriar componentes** usando screenshots como referência\n\n### Opção 3: Plugin \"Figma from Code\"\n1. **Conectar repositório** GitHub ao plugin\n2. **Mapear componentes** React para Figma\n3. **Importar estrutura** automaticamente\n4. **Ajustar styling** conforme necessário\n\n## 🎨 Configuração do Design System\n\n### 1. Importar Variables\n```\nFigma → Libraries → Variables → Import\nArquivo: exports/figma-ready/tokens/figma-variables.json\n```\n\n### 2. Criar Components\n- Use **Component Sets** para variantes\n- Configure **Properties** para estados\n- Aplique **Auto Layout** para responsividade\n- Use **Constraints** para diferentes tamanhos\n\n### 3. Organizar Biblioteca\n```\n📁 Hotel Booking System\n├── 🎨 Foundations\n│   ├── Colors\n│   ├── Typography\n│   ├── Spacing\n│   └── Effects\n├── 🧩 Components\n│   ├── Header\n│   ├── Footer\n│   ├── Cards\n│   ├── Forms\n│   └── Modals\n└── 📱 Templates\n    ├── Home\n    ├── Rooms\n    ├── Services\n    └── Auth\n```\n\n## 🔄 Configurar Protótipo\n\n### 1. Connections\n- **Smart Animate** entre páginas\n- **Overlay** para modals\n- **Scroll** para páginas longas\n\n### 2. Interactions\n```\nHeader Navigation:\nHome → On Click → Navigate to → Rooms\n\nBook Now Button:\nRoom Details → On Click → Open Overlay → Payment Modal\n\nMobile Menu:\nHeader → On Click → Smart Animate → Mobile Menu Open\n```\n\n### 3. Device Frames\n- **Desktop**: 1440x900\n- **Tablet**: 768x1024  \n- **Mobile**: 375x812\n\n## 📱 Responsividade\n\n### Auto Layout Settings\n- **Direction**: Vertical para páginas\n- **Spacing**: Entre elementos (8px, 16px, 24px)\n- **Padding**: Interno dos containers (16px, 24px, 32px)\n- **Resizing**: Fill container para largura\n\n### Constraints\n- **Header**: Fixed top\n- **Footer**: Fixed bottom\n- **Content**: Scale para altura\n- **Sidebar**: Fixed left (se aplicável)\n\n## 🎯 Finalização\n\n### 1. Testar Protótipo\n- [ ] Navegação entre páginas funciona\n- [ ] Responsividade em diferentes tamanhos\n- [ ] Modals abrem/fecham corretamente\n- [ ] Estados hover/active aplicados\n\n### 2. Documentar\n- [ ] Adicionar descriptions aos components\n- [ ] Documentar interactions complexas\n- [ ] Criar style guide page\n- [ ] Configurar sharing settings\n\n### 3. Compartilhar\n- [ ] Publicar biblioteca se necessário\n- [ ] Configurar permissions\n- [ ] Gerar link de protótipo\n- [ ] Testar em diferentes dispositivos\n\n## 🔗 Links Úteis\n\n- [Figma Dev Mode](https://help.figma.com/hc/en-us/articles/15023124644247)\n- [Auto Layout Guide](https://help.figma.com/hc/en-us/articles/5731482952599)\n- [Prototyping in Figma](https://help.figma.com/hc/en-us/articles/360040314193)\n- [Component Properties](https://help.figma.com/hc/en-us/articles/5579474826519)\n\n## ✨ Tips & Tricks\n\n### Performance\n- Use **Instance Swap** para conteúdo dinâmico\n- Otimize **imagens** antes de importar\n- Minimize **sobreposições** desnecessárias\n\n### Manutenção\n- Mantenha **naming consistency** \n- Use **description fields** para documentação\n- Configure **version control** para mudanças grandes\n\n### Colaboração\n- Use **comments** para feedback\n- Configure **branch review** se necessário  \n- Documente **handoff specs** para desenvolvimento\n"

/-- `generateImportGuide` (lines 417-581) as a filesystem step. -/
def generateImportGuide (fs : FS) : FS :=
  { fs with files := setFile (OUTPUT_DIR ++ "/IMPORT-GUIDE.md") importGuide fs.files }

/-- `prepareExport` (lines 18-44): create the directory tree, then run the
five steps in order; a failure in a step aborts the rest. -/
def prepareExport (fs : FS) : Except (String × FS) FS :=
  let fs0 : FS := { fs with dirs := mkAllDirs fs.dirs }
  match exportDesignTokens fs0 with
  | .error e => .error e
  | .ok fs1 =>
    .ok (generateImportGuide (generateNavigationFlow (generatePagesGuide (generateComponentSpecs fs1))))

/-- `main` (lines 584-593). -/
def main (fs : FS) : Except (String × FS) FS :=
  prepareExport fs

/-- `main().catch(console.error)` (lines 595-597): a rejection is caught by
the handler, which prints the error; the process then terminates normally.
Result: (exit code, error lines printed to the console). -/
def nodeProcess (fs : FS) : Nat × List String :=
  match main fs with
  | .ok _ => (0, [])
  | .error e => (0, [e.1])

/-- The example input document of the specification:
`{"colors":{"primary":{"value":"#FF0000"}},"spacing":{"sm":{"value":"4px"}}}`. -/
def exInput : TokensDoc :=
  { colors := [("primary", { value := "#FF0000", description := none })]
    spacing := [("sm", { value := "4px", description := none })]
    typography := none }

/-- A small input document that also carries a typography font size. -/
def exInputTypo : TokensDoc :=
  { colors := [("primary", { value := "#FF0000", description := none })]
    spacing := [("sm", { value := "4px", description := none })]
    typography := some { fontSize := some [("base", { value := "16px", description := none })] } }

/-- A filesystem whose input token document is missing. -/
def exFSMissing : FS :=
  { tokensInput := .missing, dirs := [], files := [] }

/-- A filesystem whose input token document parses to `exInput`. -/
def exFSParsed : FS :=
  { tokensInput := .parsed exInput, dirs := [], files := [] }

/-- Statement helper for C5: the exception message thrown while reading the
token document (`""` is unused: the `parsed` case throws nothing). -/
def errMsg : ReadResult → String
  | .missing => "ENOENT: no such file or directory, open ./tokens/design-tokens.json"
  | .malformed => "SyntaxError: Unexpected token in JSON"
  | .parsed _ => ""

/-- The full write list of one successful run on a parsed document `d`, in
execution order. -/
def allWrites (d : TokensDoc) : List (String × String) :=
  [(TOKENS_DIR ++ "/figma-variables.json", figmaVariablesFile d),
   (TOKENS_DIR ++ "/tokens.css", cssTokens d)]
  ++ componentWrites
  ++ [(PAGES_DIR ++ "/README.md", pagesGuide),
      (OUTPUT_DIR ++ "/navigation-flow.json", stringify (navigationFlowJson navigationFlow)),
      (OUTPUT_DIR ++ "/IMPORT-GUIDE.md", importGuide)]

/-- The filesystem after a run on the example input (used by the C6 witness). -/
def exFSAfter : FS :=
  match prepareExport exFSParsed with
  | .ok f => f
  | .error _ => exFSParsed

theorem splitNl_ne_nil (cs : List Char) : splitNl cs ≠ [] := by
  match cs with
  | [] => simp [splitNl]
  | c :: cs =>
    rw [splitNl]
    split
    · simp
    · cases h : splitNl cs <;> simp

theorem splitNl_nl_cons (cs : List Char) : splitNl ('\n' :: cs) = [] :: splitNl cs := by
  rw [splitNl]
  simp

theorem splitNl_append_nlFree (xs ys : List Char) (h : '\n' ∉ xs) :
    splitNl (xs ++ ys) = (splitNl ys).modifyHead (xs ++ ·) := by
  induction xs with
  | nil => cases hys : splitNl ys <;> simp [List.modifyHead, hys]

  | cons c cs ih =>
    have hc : c ≠ '\n' := by intro hc; exact h (hc ▸ List.mem_cons_self c cs)
    have hcs : '\n' ∉ cs := fun hm => h (List.mem_cons_of_mem c hm)
    rw [List.cons_append, splitNl, if_neg hc, ih hcs]
    cases hys : splitNl ys with
    | nil => exact absurd hys (splitNl_ne_nil ys)
    | cons l ls => simp [List.modifyHead]

theorem mk_data (s : String) : String.mk s.data = s := rfl

theorem map_mk_map_data (l : List String) : (l.map String.data).map String.mk = l := by
  induction l with
  | nil => rfl
  | cons x xs ih => simp [ih, mk_data]

theorem splitNl_line_append (xs rest : List Char) (h : '\n' ∉ xs) :
    splitNl (xs ++ '\n' :: rest) = xs :: splitNl rest := by
  rw [splitNl_append_nlFree xs _ h, splitNl_nl_cons]
  simp [List.modifyHead]

/-- Splitting the character data of a `'\n'.join`-ed block followed by a
newline: one line per block element ([""] when the block is empty). -/
theorem splitNl_joinNl (xs : List String) (rest : List Char)
    (h : ∀ x ∈ xs, '\n' ∉ x.data) :
    splitNl ((joinNl xs).data ++ '\n' :: rest)
      = (if xs = [] then [([] : List Char)] else xs.map String.data) ++ splitNl rest := by
  match xs with
  | [] => simp [joinNl, splitNl_nl_cons]
  | [x] =>
    rw [joinNl]
    rw [splitNl_line_append x.data rest (h x (by simp))]
    simp
  | x :: y :: ys =>
    rw [joinNl]
    have hx : '\n' ∉ x.data := h x (by simp)
    have hrec := splitNl_joinNl (y :: ys) rest (fun z hz => h z (List.mem_cons_of_mem x hz))
    have hdata : (x ++ "\n" ++ joinNl (y :: ys)).data ++ '\n' :: rest
        = x.data ++ '\n' :: ((joinNl (y :: ys)).data ++ '\n' :: rest) := by
      simp [String.data_append]
    rw [hdata, splitNl_line_append x.data _ hx, hrec]
    · simp [List.cons_ne_nil]
    · simp

/-- The lines of the emitted `tokens.css` file: a leading empty line, the
comment line, `:root {`, the color declarations (one line per entry), an
empty separator line, the spacing declarations, `}` and a trailing empty
line.  When a block is empty its join contributes one empty line. -/
theorem strLines_cssTokens (d : TokensDoc)
    (hc : ∀ p ∈ d.colors, '\n' ∉ (cssColorLine p).data)
    (hs : ∀ p ∈ d.spacing, '\n' ∉ (cssSpacingLine p).data) :
    strLines (cssTokens d)
      = ["", "/* Design Tokens para importação no Figma */", ":root \x7b"]
        ++ (if d.colors = [] then [""] else d.colors.map cssColorLine)
        ++ [""]
        ++ (if d.spacing = [] then [""] else d.spacing.map cssSpacingLine)
        ++ ["\x7d", ""] := by
  have hdata : (cssTokens d).data
      = '\n' :: ("/* Design Tokens para importação no Figma */".data
          ++ '\n' :: (":root \x7b".data
          ++ '\n' :: ((joinNl (d.colors.map cssColorLine)).data
          ++ '\n' :: ('\n' :: ((joinNl (d.spacing.map cssSpacingLine)).data
          ++ '\n' :: ("\x7d".data ++ ['\n'])))))) := by
    simp [cssTokens, String.data_append]
  rw [strLines, hdata, splitNl_nl_cons]
  rw [splitNl_line_append "/* Design Tokens para importação no Figma */".data _ (by decide)]
  rw [splitNl_line_append ":root \x7b".data _ (by decide)]
  rw [splitNl_joinNl (d.colors.map cssColorLine) _
    (fun x hx => by obtain ⟨p, hp, rfl⟩ := List.mem_map.mp hx; exact hc p hp)]
  rw [splitNl_nl_cons]
  rw [splitNl_joinNl (d.spacing.map cssSpacingLine) _
    (fun x hx => by obtain ⟨p, hp, rfl⟩ := List.mem_map.mp hx; exact hs p hp)]
  rw [splitNl_line_append "\x7d".data _ (by decide)]
  rw [show splitNl [] = [[]] from rfl]
  by_cases hc0 : d.colors = [] <;> by_cases hs0 : d.spacing = [] <;>
    simp [hc0, hs0, mk_data, map_mk_map_data, List.map_append, Function.comp_def,
      show String.mk [] = "" from rfl]

theorem string_append_right_injective (p a b : String) (h : p ++ a = p ++ b) : a = b := by
  have hd := congrArg String.data h
  rw [String.data_append, String.data_append] at hd
  exact String.ext (List.append_cancel_left hd)

theorem string_append_ne_of_head_ne (p q a b : String) (c1 c2 : Char)
    (hp : p.data = c1 :: (p.data.tail)) (hq : q.data = c2 :: (q.data.tail)) (hne : c1 ≠ c2) :
    p ++ a ≠ q ++ b := by
  intro h
  have hd := congrArg String.data h
  rw [String.data_append, String.data_append, hp, hq] at hd
  simp only [List.cons_append, List.cons.injEq] at hd
  exact hne hd.1

theorem not_prefix_of_head_ne (xs ys : List Char) (c1 c2 : Char)
    (h1 : xs = c1 :: xs.tail) (h2 : ys = c2 :: ys.tail) (hne : c1 ≠ c2) :
    ¬ xs <+: ys := by
  rintro ⟨t, rfl⟩
  rw [h1] at h2
  simp only [List.cons_append, List.cons.injEq] at h2
  exact hne h2.1

/-- C1 ∧ C3 ∧ C8 share the decomposition of the emitted `tokens` map; the
three key families are pairwise distinct because their prefixes differ. -/
theorem figmaTokens_keys_nodup (d : TokensDoc)
    (hc : (d.colors.map Prod.fst).Nodup)
    (hs : (d.spacing.map Prod.fst).Nodup)
    (ht : ((fontSizeEntries d).map Prod.fst).Nodup) :
    ((figmaTokens d).tokens.map Prod.fst).Nodup := by
  have hmap : (figmaTokens d).tokens.map Prod.fst
      = d.colors.map (fun p => "color/" ++ p.1)
        ++ (d.spacing.map (fun p => "spacing/" ++ p.1)
          ++ (fontSizeEntries d).map (fun p => "typography/size/" ++ p.1)) := by
    simp [figmaTokens, Function.comp_def]
  rw [hmap]
  have hinj : ∀ (pre : String), Function.Injective (fun s => pre ++ s) := by
    intro pre s t hst
    exact string_append_right_injective pre s t hst
  have block : ∀ (pre : String) (l : List (String × TokenEntry)),
      (l.map Prod.fst).Nodup → (l.map (fun p => pre ++ p.1)).Nodup := by
    intro pre l hl
    have : l.map (fun p => pre ++ p.1) = (l.map Prod.fst).map (fun s => pre ++ s) := by
      simp [List.map_map]
    rw [this]
    exact hl.map (hinj pre)
  have dj_st : (d.spacing.map (fun p => "spacing/" ++ p.1)).Disjoint
      ((fontSizeEntries d).map (fun p => "typography/size/" ++ p.1)) := by
    intro x hx hy
    obtain ⟨px, _, rfl⟩ := List.mem_map.mp hx
    obtain ⟨py, _, hxy⟩ := List.mem_map.mp hy
    exact string_append_ne_of_head_ne "typography/size/" "spacing/" py.1 px.1 't' 's'
      rfl rfl (by decide) hxy
  have dj_c : (d.colors.map (fun p => "color/" ++ p.1)).Disjoint
      (d.spacing.map (fun p => "spacing/" ++ p.1)
        ++ (fontSizeEntries d).map (fun p => "typography/size/" ++ p.1)) := by
    intro x hx hy
    obtain ⟨px, _, rfl⟩ := List.mem_map.mp hx
    rcases List.mem_append.mp hy with hy | hy
    · obtain ⟨py, _, hxy⟩ := List.mem_map.mp hy
      exact string_append_ne_of_head_ne "spacing/" "color/" py.1 px.1 's' 'c'
        rfl rfl (by decide) hxy
    · obtain ⟨py, _, hxy⟩ := List.mem_map.mp hy
      exact string_append_ne_of_head_ne "typography/size/" "color/" py.1 px.1 't' 'c'
        rfl rfl (by decide) hxy
  exact (block "color/" d.colors hc).append
    ((block "spacing/" d.spacing hs).append
      (block "typography/size/" (fontSizeEntries d) ht) dj_st) dj_c

/-- C1: for an input with N `colors`, M `spacing` and T `typography["font-size"]`
entries (T = 0 when `typography` is absent), the emitted document has exactly
N+M+T keys under `tokens`, and each category's entries get the fixed
`type`/`scopes` of the lookup table. -/
theorem spec_C1 (d : TokensDoc)
    (hc : (d.colors.map Prod.fst).Nodup)
    (hs : (d.spacing.map Prod.fst).Nodup)
    (ht : ((fontSizeEntries d).map Prod.fst).Nodup) :
    ((figmaTokens d).tokens.map Prod.fst).Nodup
    ∧ (figmaTokens d).tokens.length
        = d.colors.length + d.spacing.length + (fontSizeEntries d).length
    ∧ (∀ p ∈ d.colors, ("color/" ++ p.1, colorToken p.2) ∈ (figmaTokens d).tokens
        ∧ (colorToken p.2).type = "color"
        ∧ (colorToken p.2).extensions.figma.scopes = ["ALL_SCOPES"])
    ∧ (∀ p ∈ d.spacing, ("spacing/" ++ p.1, spacingToken p.2) ∈ (figmaTokens d).tokens
        ∧ (spacingToken p.2).type = "dimension"
        ∧ (spacingToken p.2).extensions.figma.scopes = ["GAP", "SPACING", "WIDTH_HEIGHT"])
    ∧ (∀ p ∈ fontSizeEntries d,
        ("typography/size/" ++ p.1, fontSizeToken p.2) ∈ (figmaTokens d).tokens
        ∧ (fontSizeToken p.2).type = "dimension"
        ∧ (fontSizeToken p.2).extensions.figma.scopes = ["FONT_SIZE"]) := by
  refine ⟨figmaTokens_keys_nodup d hc hs ht, by simp [figmaTokens]; omega, ?_, ?_, ?_⟩
  · intro p hp
    refine ⟨?_, rfl, rfl⟩
    exact List.mem_append_left _ (List.mem_append_left _ (List.mem_map.mpr ⟨p, hp, rfl⟩))
  · intro p hp
    refine ⟨?_, rfl, rfl⟩
    exact List.mem_append_left _ (List.mem_append_right _ (List.mem_map.mpr ⟨p, hp, rfl⟩))
  · intro p hp
    refine ⟨?_, rfl, rfl⟩
    exact List.mem_append_right _ (List.mem_map.mpr ⟨p, hp, rfl⟩)

/-- C1 witness at `exInputTypo` (one color, one spacing, one font size). -/
theorem spec_C1_witness :
    ((figmaTokens exInputTypo).tokens.map Prod.fst).Nodup
    ∧ (figmaTokens exInputTypo).tokens.length = 3 := by
  have h := spec_C1 exInputTypo (by decide) (by decide) (by decide)
  exact ⟨h.1, h.2.1.trans rfl⟩

/-- C9: a color entry whose input token has no `description` still gets a
`description` field in the emitted entry, holding the empty string
(`token.description || ""`). -/
theorem spec_C9 (d : TokensDoc) (p : String × TokenEntry)
    (hp : p ∈ d.colors) (hdesc : p.2.description = none) :
    ("color/" ++ p.1, colorToken p.2) ∈ (figmaTokens d).tokens
    ∧ (colorToken p.2).description = some "" := by
  constructor
  · exact List.mem_append_left _ (List.mem_append_left _ (List.mem_map.mpr ⟨p, hp, rfl⟩))
  · simp [colorToken, hdesc]

/-- C9 witness: the `primary` color of the example input has no description
and its emitted entry carries `description = ""`. -/
theorem spec_C9_witness :
    ("color/" ++ "primary", colorToken { value := "#FF0000", description := none })
      ∈ (figmaTokens exInput).tokens
    ∧ (colorToken { value := "#FF0000", description := none }).description = some "" :=
  spec_C9 exInput ("primary", { value := "#FF0000", description := none }) (by decide) rfl

/-- C10: the hard-coded navigation graph is referentially closed: the start
node, every id in any node's `connections`, and the `from`/`to` of every
interaction are keys of `nodes`. -/
theorem spec_C10 :
    navigationFlow.startNode ∈ navigationFlow.nodes.map Prod.fst
    ∧ (∀ q ∈ navigationFlow.nodes, ∀ c ∈ q.2.connections,
        c ∈ navigationFlow.nodes.map Prod.fst)
    ∧ (∀ i ∈ navigationFlow.interactions,
        i.fromId ∈ navigationFlow.nodes.map Prod.fst
        ∧ i.toId ∈ navigationFlow.nodes.map Prod.fst) := by
  decide

/-- C10 witness: the `home → rooms` connection targets an existing node. -/
theorem spec_C10_witness : "rooms" ∈ navigationFlow.nodes.map Prod.fst := by
  have h := spec_C10
  exact h.2.1 ("home", { title := "Home", type := "page", connections := ["rooms", "services", "attractions", "login"] }) (by decide) "rooms" (by decide)

/-- C3 (counterexample): the claim says every emitted entry carries a
`description` field; the `spacing/sm` entry of the example input does not. -/
theorem spec_C3_counterexample :
    ¬ ∀ q ∈ (figmaTokens exInput).tokens, q.2.description.isSome := by
  decide

/-- C3 (amended): every emitted entry carries `type`, `value` and
`extensions.figma.{collection, scopes}` (structurally), but a `description`
field is present exactly on the entries produced from `colors`; spacing and
typography-size entries carry none. -/
theorem spec_C3 (d : TokensDoc) :
    ∀ q ∈ (figmaTokens d).tokens,
      q.2.extensions.figma.collection = "core"
      ∧ (q.2.description.isSome ↔ ∃ p ∈ d.colors, q = ("color/" ++ p.1, colorToken p.2)) := by
  intro q hq
  have hq' : q ∈ d.colors.map (fun p => ("color/" ++ p.1, colorToken p.2))
      ∨ q ∈ d.spacing.map (fun p => ("spacing/" ++ p.1, spacingToken p.2))
      ∨ q ∈ (fontSizeEntries d).map (fun p => ("typography/size/" ++ p.1, fontSizeToken p.2)) := by
    have htk : q ∈ d.colors.map (fun p => ("color/" ++ p.1, colorToken p.2))
        ++ d.spacing.map (fun p => ("spacing/" ++ p.1, spacingToken p.2))
        ++ (fontSizeEntries d).map (fun p => ("typography/size/" ++ p.1, fontSizeToken p.2)) := by
      simpa [figmaTokens] using hq
    rcases List.mem_append.mp htk with h | h
    · rcases List.mem_append.mp h with h1 | h1
      · exact Or.inl h1
      · exact Or.inr (Or.inl h1)
    · exact Or.inr (Or.inr h)
  rcases hq' with h | h | h
  · obtain ⟨p, hp, rfl⟩ := List.mem_map.mp h
    exact ⟨rfl, ⟨fun _ => ⟨p, hp, rfl⟩, fun _ => rfl⟩⟩
  · obtain ⟨p, hp, rfl⟩ := List.mem_map.mp h
    refine ⟨rfl, iff_of_false (by simp [spacingToken]) ?_⟩
    rintro ⟨p', hp', heq⟩
    have hfst : "spacing/" ++ p.1 = "color/" ++ p'.1 := congrArg Prod.fst heq
    exact string_append_ne_of_head_ne "spacing/" "color/" p.1 p'.1 's' 'c' rfl rfl
      (by decide) hfst
  · obtain ⟨p, hp, rfl⟩ := List.mem_map.mp h
    refine ⟨rfl, iff_of_false (by simp [fontSizeToken]) ?_⟩
    rintro ⟨p', hp', heq⟩
    have hfst : "typography/size/" ++ p.1 = "color/" ++ p'.1 := congrArg Prod.fst heq
    exact string_append_ne_of_head_ne "typography/size/" "color/" p.1 p'.1 't' 'c' rfl rfl
      (by decide) hfst

/-- C3 witness (amended claim at the example input, color entry). -/
theorem spec_C3_witness :
    (colorToken { value := "#FF0000", description := none }).description.isSome := by
  have h := spec_C3 exInput
    ("color/" ++ "primary", colorToken { value := "#FF0000", description := none }) (by decide)
  exact h.2.mpr ⟨("primary", { value := "#FF0000", description := none }), by decide, rfl⟩

/-- C4 (counterexample): with the input document missing, `main` fails, yet
the process exit code is 0, not non-zero: the rejection is handled by
`.catch(console.error)`, so there is no unhandled rejection. -/
theorem spec_C4_counterexample :
    ¬ ((main exFSMissing).isOk = false → (nodeProcess exFSMissing).1 ≠ 0) := by
  decide

/-- C4 (amended): the process exits 0 on success and also exits 0 on any
failure, because `main().catch(console.error)` handles the rejection; the
error is printed to the console in the failure case. -/
theorem spec_C4 (fs : FS) :
    (nodeProcess fs).1 = 0
    ∧ (∀ r, main fs = .ok r → (nodeProcess fs).2 = [])
    ∧ (∀ e, main fs = .error e → (nodeProcess fs).2 = [e.1]) := by
  unfold nodeProcess
  cases h : main fs with
  | ok r =>
    refine ⟨rfl, fun _ _ => rfl, fun e he => ?_⟩
    cases he
  | error e =>
    refine ⟨rfl, fun r hr => ?_, fun e' he' => ?_⟩
    · cases hr
    · injection he' with h2
      rw [h2]

/-- C4 witness: at the missing-input filesystem the exit code is 0 and the
ENOENT error is printed. -/
theorem spec_C4_witness :
    (nodeProcess exFSMissing).1 = 0
    ∧ (nodeProcess exFSMissing).2
        = ["ENOENT: no such file or directory, open ./tokens/design-tokens.json"] := by
  have h := spec_C4 exFSMissing
  refine ⟨h.1, ?_⟩
  have h2 := h.2.2 ("ENOENT: no such file or directory, open ./tokens/design-tokens.json",
    { exFSMissing with dirs := mkAllDirs exFSMissing.dirs }) rfl
  exact h2.trans rfl

/-- C5: a missing or malformed token document makes the converter throw
before any write, so the whole export aborts with the filesystem's files
untouched: no output file of any step is written. -/
theorem spec_C5 (fs : FS)
    (h : fs.tokensInput = .missing ∨ fs.tokensInput = .malformed) :
    prepareExport fs = .error (errMsg fs.tokensInput, { fs with dirs := mkAllDirs fs.dirs })
    ∧ ({ fs with dirs := mkAllDirs fs.dirs } : FS).files = fs.files := by
  refine ⟨?_, rfl⟩
  rcases h with h | h <;> simp [prepareExport, exportDesignTokens, h, errMsg]

/-- C5 witness at the missing-input filesystem. -/
theorem spec_C5_witness :
    (exFSMissing.tokensInput = .missing ∨ exFSMissing.tokensInput = .malformed)
    ∧ prepareExport exFSMissing
        = .error (errMsg exFSMissing.tokensInput,
            { exFSMissing with dirs := mkAllDirs exFSMissing.dirs })
    ∧ ({ exFSMissing with dirs := mkAllDirs exFSMissing.dirs } : FS).files
        = exFSMissing.files := by
  have h := spec_C5 exFSMissing (Or.inl rfl)
  exact ⟨Or.inl rfl, h.1, h.2⟩

/-- C8: when `typography` is absent, or present without a `font-size` map,
the converter still succeeds and no emitted key lies under
`typography/size/`. -/
theorem spec_C8 (d : TokensDoc) (fs : FS)
    (ht : d.typography = none ∨ ∀ ty, d.typography = some ty → ty.fontSize = none)
    (hfs : fs.tokensInput = .parsed d) :
    (exportDesignTokens fs).isOk = true
    ∧ fontSizeEntries d = []
    ∧ ∀ q ∈ (figmaTokens d).tokens, ¬ ("typography/size/".data <+: q.1.data) := by
  have hfse : fontSizeEntries d = [] := by
    rcases ht with h | h
    · simp [fontSizeEntries, h]
    · cases hty : d.typography with
      | none => simp [fontSizeEntries, hty]
      | some ty => simp [fontSizeEntries, hty, h ty hty]
  refine ⟨by simp [exportDesignTokens, hfs, Except.isOk, Except.toBool], hfse, ?_⟩
  intro q hq
  have htk : (figmaTokens d).tokens
      = d.colors.map (fun p => ("color/" ++ p.1, colorToken p.2))
        ++ d.spacing.map (fun p => ("spacing/" ++ p.1, spacingToken p.2)) := by
    simp [figmaTokens, hfse]
  rw [htk] at hq
  rcases List.mem_append.mp hq with h | h
  · obtain ⟨p, _, rfl⟩ := List.mem_map.mp h
    have hdata : ("color/" ++ p.1).data = 'c' :: ("color/" ++ p.1).data.tail := by
      rw [String.data_append]
      rfl
    exact not_prefix_of_head_ne _ _ 't' 'c' rfl hdata (by decide)
  · obtain ⟨p, _, rfl⟩ := List.mem_map.mp h
    have hdata : ("spacing/" ++ p.1).data = 's' :: ("spacing/" ++ p.1).data.tail := by
      rw [String.data_append]
      rfl
    exact not_prefix_of_head_ne _ _ 't' 's' rfl hdata (by decide)

/-- C8 witness: `exInput` has no `typography` and the converter still
succeeds on it. -/
theorem spec_C8_witness :
    (exportDesignTokens exFSParsed).isOk = true ∧ fontSizeEntries exInput = [] := by
  have h := spec_C8 exInput exFSParsed (Or.inl rfl) rfl
  exact ⟨h.1, h.2.1⟩

theorem nlFree_cssColorLine (p : String × TokenEntry)
    (h1 : '\n' ∉ p.1.data) (h2 : '\n' ∉ p.2.value.data) : '\n' ∉ (cssColorLine p).data := by
  intro hmem
  simp only [cssColorLine, String.data_append, List.mem_append] at hmem
  rcases hmem with (((h | h) | h) | h) | h
  · exact absurd h (by decide)
  · exact h1 h
  · exact absurd h (by decide)
  · exact h2 h
  · exact absurd h (by decide)

theorem nlFree_cssSpacingLine (p : String × TokenEntry)
    (h1 : '\n' ∉ p.1.data) (h2 : '\n' ∉ p.2.value.data) : '\n' ∉ (cssSpacingLine p).data := by
  intro hmem
  simp only [cssSpacingLine, String.data_append, List.mem_append] at hmem
  rcases hmem with (((h | h) | h) | h) | h
  · exact absurd h (by decide)
  · exact h1 h
  · exact absurd h (by decide)
  · exact h2 h
  · exact absurd h (by decide)

theorem colorLine_isDecl (p : String × TokenEntry) :
    ("  --".data.isPrefixOf (cssColorLine p).data) = true := by
  rw [List.isPrefixOf_iff_prefix]
  have hdata : (cssColorLine p).data
      = "  --color-".data ++ (p.1.data ++ (": ".data ++ (p.2.value.data ++ ";".data))) := by
    simp [cssColorLine, String.data_append]
  rw [hdata]
  exact List.IsPrefix.trans (by decide) (List.prefix_append _ _)

theorem spacingLine_isDecl (p : String × TokenEntry) :
    ("  --".data.isPrefixOf (cssSpacingLine p).data) = true := by
  rw [List.isPrefixOf_iff_prefix]
  have hdata : (cssSpacingLine p).data
      = "  --spacing-".data ++ (p.1.data ++ (": ".data ++ (p.2.value.data ++ ";".data))) := by
    simp [cssSpacingLine, String.data_append]
  rw [hdata]
  exact List.IsPrefix.trans (by decide) (List.prefix_append _ _)

/-- C2: the emitted CSS contains exactly one `--color-<name>: <value>;` line
per color entry and one `--spacing-<name>: <value>;` line per spacing entry,
in input iteration order (colors first, as in the template); and the example
input produces `--color-primary: #FF0000;`, `--spacing-sm: 4px;`, and Figma
keys `color/primary` (type `color`) and `spacing/sm` (type `dimension`). -/
theorem spec_C2 (d : TokensDoc)
    (hc : ∀ p ∈ d.colors, '\n' ∉ p.1.data ∧ '\n' ∉ p.2.value.data)
    (hs : ∀ p ∈ d.spacing, '\n' ∉ p.1.data ∧ '\n' ∉ p.2.value.data) :
    (strLines (cssTokens d)).filter (fun s => "  --".data.isPrefixOf s.data)
        = d.colors.map cssColorLine ++ d.spacing.map cssSpacingLine
    ∧ "  --color-primary: #FF0000;" ∈ strLines (cssTokens exInput)
    ∧ "  --spacing-sm: 4px;" ∈ strLines (cssTokens exInput)
    ∧ List.lookup "color/primary" (figmaTokens exInput).tokens
        = some (colorToken { value := "#FF0000", description := none })
    ∧ (colorToken { value := "#FF0000", description := none }).type = "color"
    ∧ List.lookup "spacing/sm" (figmaTokens exInput).tokens
        = some (spacingToken { value := "4px", description := none })
    ∧ (spacingToken { value := "4px", description := none }).type = "dimension" := by
  have hc' : ∀ p ∈ d.colors, '\n' ∉ (cssColorLine p).data :=
    fun p hp => nlFree_cssColorLine p (hc p hp).1 (hc p hp).2
  have hs' : ∀ p ∈ d.spacing, '\n' ∉ (cssSpacingLine p).data :=
    fun p hp => nlFree_cssSpacingLine p (hs p hp).1 (hs p hp).2
  refine ⟨?_, by decide, by decide, by decide, rfl, by decide, rfl⟩
  rw [strLines_cssTokens d hc' hs']
  simp only [List.filter_append]
  have h1 : (["", "/* Design Tokens para importação no Figma */", ":root \x7b"].filter
      (fun s => "  --".data.isPrefixOf s.data)) = [] := by decide
  have h2 : ([""].filter (fun s => "  --".data.isPrefixOf s.data)) = [] := by decide
  have h3 : (["\x7d", ""].filter (fun s => "  --".data.isPrefixOf s.data)) = [] := by decide
  have hcf : (d.colors.map cssColorLine).filter (fun s => "  --".data.isPrefixOf s.data)
      = d.colors.map cssColorLine := by
    rw [List.filter_eq_self]
    intro a ha
    obtain ⟨p, _, rfl⟩ := List.mem_map.mp ha
    exact colorLine_isDecl p
  have hsf : (d.spacing.map cssSpacingLine).filter (fun s => "  --".data.isPrefixOf s.data)
      = d.spacing.map cssSpacingLine := by
    rw [List.filter_eq_self]
    intro a ha
    obtain ⟨p, _, rfl⟩ := List.mem_map.mp ha
    exact spacingLine_isDecl p
  by_cases hc0 : d.colors = [] <;> by_cases hs0 : d.spacing = [] <;>
    simp [hc0, hs0, h1, h2, h3, hcf, hsf]

/-- C2 witness: the CSS declaration lines of the example input are exactly
its color line followed by its spacing line. -/
theorem spec_C2_witness :
    (∀ p ∈ exInput.colors, '\n' ∉ p.1.data ∧ '\n' ∉ p.2.value.data)
    ∧ (strLines (cssTokens exInput)).filter (fun s => "  --".data.isPrefixOf s.data)
        = exInput.colors.map cssColorLine ++ exInput.spacing.map cssSpacingLine := by
  refine ⟨by decide, ?_⟩
  exact (spec_C2 exInput (by decide) (by decide)).1

set_option maxRecDepth 100000 in
/-- C7: the Component Spec Writer writes exactly five Markdown files, one per
hard-coded descriptor, named `<name>.md` inside the components directory; each
file's title line is `# <name>` and every prop (backtick-quoted), state and
variant is its own bullet line. -/
theorem spec_C7 :
    componentWrites.length = 5
    ∧ componentWrites.map Prod.fst
        = components.map (fun c => COMPONENTS_DIR ++ "/" ++ c.name ++ ".md")
    ∧ ∀ c ∈ components,
        (COMPONENTS_DIR ++ "/" ++ c.name ++ ".md", componentSpec c) ∈ componentWrites
        ∧ (strLines (componentSpec c)).head? = some ("# " ++ c.name)
        ∧ (∀ prop ∈ c.props, ("- `" ++ prop ++ "`") ∈ strLines (componentSpec c))
        ∧ (∀ state ∈ c.states, ("- " ++ state) ∈ strLines (componentSpec c))
        ∧ (∀ variant ∈ c.variants, ("- " ++ variant) ∈ strLines (componentSpec c)) := by
  decide

set_option maxRecDepth 100000 in
/-- C7 witness: the `Header` spec file and its title line. -/
theorem spec_C7_witness :
    (strLines (componentSpec { name := "Header", description := "Cabeçalho principal com navegação", props := ["currentPage", "onNavigate"], states := ["default", "mobile-menu-open"], variants := ["desktop", "mobile"] })).head? = some "# Header" := by
  have h := spec_C7
  exact (h.2.2 { name := "Header", description := "Cabeçalho principal com navegação", props := ["currentPage", "onNavigate"], states := ["default", "mobile-menu-open"], variants := ["desktop", "mobile"] } (by decide)).2.1.trans rfl

theorem lookupFile_setFile_self (p c : String) (f : List (String × String)) :
    lookupFile p (setFile p c f) = some c := by
  induction f with
  | nil => simp [setFile, lookupFile]
  | cons qd fs ih =>
    obtain ⟨q, d⟩ := qd
    by_cases h : q = p
    · simp [setFile, lookupFile, h]
    · simp [setFile, lookupFile, h, ih]

theorem lookupFile_setFile_ne (p q c : String) (f : List (String × String)) (h : q ≠ p) :
    lookupFile p (setFile q c f) = lookupFile p f := by
  induction f with
  | nil => simp [setFile, lookupFile, h]
  | cons rd fs ih =>
    obtain ⟨r, d⟩ := rd
    by_cases hr : r = q
    · subst hr
      have h1 : setFile r c ((r, d) :: fs) = (r, c) :: fs := by simp [setFile]
      rw [h1]
      simp [lookupFile, h]
    · have h1 : setFile q c ((r, d) :: fs) = (r, d) :: setFile q c fs := by simp [setFile, hr]
      rw [h1]
      by_cases hp : r = p
      · simp [lookupFile, hp]
      · simp [lookupFile, hp, ih]

theorem setFile_of_lookupFile_eq (p c : String) (f : List (String × String))
    (h : lookupFile p f = some c) : setFile p c f = f := by
  induction f with
  | nil => simp [lookupFile] at h
  | cons qd fs ih =>
    obtain ⟨q, d⟩ := qd
    by_cases hq : q = p
    · subst hq
      simp [lookupFile] at h
      subst h
      simp [setFile]
    · simp only [lookupFile, if_neg hq] at h
      simp [setFile, hq, ih h]

theorem applyWrites_cons (w : String × String) (ws : List (String × String))
    (f : List (String × String)) :
    applyWrites (w :: ws) f = applyWrites ws (setFile w.1 w.2 f) := rfl

theorem lookupFile_applyWrites_not_mem (p : String) (ws f : List (String × String))
    (h : p ∉ ws.map Prod.fst) :
    lookupFile p (applyWrites ws f) = lookupFile p f := by
  induction ws generalizing f with
  | nil => rfl
  | cons w ws ih =>
    have hp : w.1 ≠ p := fun he => h (by rw [List.map_cons, he]; exact List.mem_cons_self p _)
    rw [applyWrites_cons,
      ih _ (fun hm => h (by rw [List.map_cons]; exact List.mem_cons_of_mem _ hm))]
    exact lookupFile_setFile_ne p w.1 w.2 f hp

theorem lookupFile_applyWrites_mem (ws f : List (String × String))
    (hnd : (ws.map Prod.fst).Nodup) :
    ∀ w ∈ ws, lookupFile w.1 (applyWrites ws f) = some w.2 := by
  induction ws generalizing f with
  | nil => intro w hw; cases hw
  | cons v ws ih =>
    rw [List.map_cons] at hnd
    have hnd' := List.nodup_cons.mp hnd
    intro w hw
    rcases List.mem_cons.mp hw with rfl | hw
    · rw [applyWrites_cons, lookupFile_applyWrites_not_mem _ _ _ hnd'.1]
      exact lookupFile_setFile_self w.1 w.2 f
    · rw [applyWrites_cons]
      exact ih _ hnd'.2 w hw

theorem applyWrites_of_lookup (ws g : List (String × String))
    (h : ∀ w ∈ ws, lookupFile w.1 g = some w.2) : applyWrites ws g = g := by
  induction ws with
  | nil => rfl
  | cons w ws ih =>
    rw [applyWrites_cons, setFile_of_lookupFile_eq w.1 w.2 g (h w (List.mem_cons_self w ws))]
    exact ih (fun v hv => h v (List.mem_cons_of_mem _ hv))

/-- Re-applying the same write list is the identity: every path already holds
its final contents (the paths are distinct, so no write shadows another). -/
theorem applyWrites_idem (ws f : List (String × String))
    (hnd : (ws.map Prod.fst).Nodup) :
    applyWrites ws (applyWrites ws f) = applyWrites ws f :=
  applyWrites_of_lookup ws _ (lookupFile_applyWrites_mem ws f hnd)

theorem mem_foldl_mkdir (L ds : List String) (x : String) (hx : x ∈ ds) :
    x ∈ L.foldl (fun ds d => mkdirIfMissing d ds) ds := by
  induction L generalizing ds with
  | nil => exact hx
  | cons a L ih =>
    rw [List.foldl_cons]
    apply ih
    show x ∈ mkdirIfMissing a ds
    unfold mkdirIfMissing
    split
    · exact hx
    · exact List.mem_append_left _ hx

theorem mem_foldl_mkdir_of_mem (L ds : List String) (x : String) (hx : x ∈ L) :
    x ∈ L.foldl (fun ds d => mkdirIfMissing d ds) ds := by
  induction L generalizing ds with
  | nil => cases hx
  | cons a L ih =>
    rw [List.foldl_cons]
    rcases List.mem_cons.mp hx with rfl | hx
    · apply mem_foldl_mkdir
      show x ∈ mkdirIfMissing x ds
      unfold mkdirIfMissing
      split
      · assumption
      · simp
    · exact ih _ hx

theorem foldl_mkdir_of_all_mem (L ds : List String) (h : ∀ x ∈ L, x ∈ ds) :
    L.foldl (fun ds d => mkdirIfMissing d ds) ds = ds := by
  induction L with
  | nil => rfl
  | cons a L ih =>
    have ha : mkdirIfMissing a ds = ds := by
      unfold mkdirIfMissing
      rw [if_pos (h a (by simp))]
    rw [List.foldl_cons, ha]
    exact ih (fun x hx => h x (by simp [hx]))

/-- Creating the directory tree twice is the same as creating it once. -/
theorem mkAllDirs_idem (ds : List String) : mkAllDirs (mkAllDirs ds) = mkAllDirs ds := by
  unfold mkAllDirs
  exact foldl_mkdir_of_all_mem _ _ (fun x hx => mem_foldl_mkdir_of_mem _ _ _ hx)

/-- Normal form of one successful run: directories are created and the ten
output files written in execution order. -/
theorem prepareExport_parsed (fs : FS) (d : TokensDoc) (h : fs.tokensInput = .parsed d) :
    prepareExport fs = .ok { tokensInput := fs.tokensInput, dirs := mkAllDirs fs.dirs,
                             files := applyWrites (allWrites d) fs.files } := by
  unfold prepareExport exportDesignTokens generateComponentSpecs generatePagesGuide
    generateNavigationFlow generateImportGuide
  simp only [h]
  simp [allWrites, applyWrites, List.foldl_append]

/-- The ten output paths are pairwise distinct. -/
theorem allWrites_keys_nodup (d : TokensDoc) : ((allWrites d).map Prod.fst).Nodup := by
  have h : (allWrites d).map Prod.fst
      = ["./exports/figma-ready/tokens/figma-variables.json",
         "./exports/figma-ready/tokens/tokens.css",
         "./exports/figma-ready/components/Header.md",
         "./exports/figma-ready/components/PaymentModal.md",
         "./exports/figma-ready/components/RoomCard.md",
         "./exports/figma-ready/components/ServiceCard.md",
         "./exports/figma-ready/components/Footer.md",
         "./exports/figma-ready/pages/README.md",
         "./exports/figma-ready/navigation-flow.json",
         "./exports/figma-ready/IMPORT-GUIDE.md"] := rfl
  rw [h]
  decide

/-- C6: the export is a deterministic function of its input and overwrites
every output path, so re-running it on its own output state changes nothing:
a second run reproduces byte-identical contents for every output file. -/
theorem spec_C6 (fs fs1 : FS) (h : prepareExport fs = .ok fs1) :
    prepareExport fs1 = .ok fs1 := by
  cases hti : fs.tokensInput with
  | missing => simp [prepareExport, exportDesignTokens, hti] at h
  | malformed => simp [prepareExport, exportDesignTokens, hti] at h
  | parsed d =>
    rw [prepareExport_parsed fs d hti] at h
    injection h with h1
    subst h1
    rw [prepareExport_parsed { tokensInput := fs.tokensInput, dirs := mkAllDirs fs.dirs, files := applyWrites (allWrites d) fs.files } d hti]
    simp [mkAllDirs_idem fs.dirs,
      applyWrites_idem (allWrites d) fs.files (allWrites_keys_nodup d)]

/-- C6 witness: running twice from an empty filesystem with the example
input reaches a fixed point after the first run. -/
theorem spec_C6_witness :
    prepareExport exFSParsed = .ok exFSAfter ∧ prepareExport exFSAfter = .ok exFSAfter := by
  have h1 : prepareExport exFSParsed = .ok exFSAfter := rfl
  exact ⟨h1, spec_C6 exFSParsed exFSAfter h1⟩

end ExportToFigma
